import Mathlib

set_option maxHeartbeats 1000000

/-!
Shallow embedding of the LinkedIn AI Agent conversational session engine
(`telegram_bot.py`) and its performance monitoring subsystem
(`utils/performance_monitor.py`), with theorems checking the design
specification against the code.
-/

/-! ## Python string helpers -/

/-- Counter for Python `len(s.split())`: number of maximal non-whitespace
runs; the boolean records whether we are inside a token. -/
def pyCountAux : Bool → List Char → Nat
  | _, [] => 0
  | inWord, c :: cs =>
    if c.isWhitespace then pyCountAux false cs
    else (if inWord then 0 else 1) + pyCountAux true cs

/-- Python `len(message.split())`: whitespace-delimited token count. -/
def pySplitLen (s : String) : Nat := pyCountAux false s.toList

/-- Whether the second character list starts with the first. -/
def charsStartWith : List Char → List Char → Bool
  | [], _ => true
  | _ :: _, [] => false
  | a :: as, b :: bs => a == b && charsStartWith as bs

/-- Whether the character list `pat` occurs contiguously in the second list. -/
def charsContain (pat : List Char) : List Char → Bool
  | [] => charsStartWith pat []
  | c :: cs => charsStartWith pat (c :: cs) || charsContain pat cs

/-- Python substring containment `pat in s`. -/
def strContains (s pat : String) : Bool := charsContain pat.toList s.toList

/-- Drop leading whitespace characters. -/
def dropLeadingWs : List Char → List Char
  | [] => []
  | c :: cs => if c.isWhitespace then dropLeadingWs cs else c :: cs

/-- Python `str.strip()`: remove leading and trailing whitespace. -/
def pyStrip (s : String) : String :=
  ⟨(dropLeadingWs ((dropLeadingWs s.toList).reverse)).reverse⟩

/-- Python `str.lower()`: lower-case every character. -/
def pyLower (s : String) : String := ⟨s.toList.map Char.toLower⟩

/-- Python `sep.join(parts)`. -/
def pyJoin (sep : String) : List String → String
  | [] => ""
  | [x] => x
  | x :: y :: rest => x ++ sep ++ pyJoin sep (y :: rest)

/-! ## Style analysis (`_analyze_writing_style`) -/

/-- The four style dimensions produced by `_analyze_writing_style`
(`style_indicators` dictionary: always all four keys). -/
structure StyleIndicators where
  tone : String
  length : String
  enthusiasm : String
  formality : String
deriving DecidableEq

/-- Casual-marker word list from `telegram_bot.py` line 365. -/
def casualMarkers : List String := ["yeah", "like", "kinda", "gonna"]

/-- Friendly word list from `telegram_bot.py` line 368. -/
def friendlyWords : List String := ["hey", "cool", "awesome", "great"]

/-- Punctuation markers from `telegram_bot.py` line 367. -/
def enthusiasmMarks : List String := ["!", "?", "..."]

/-- The style analysis of a single message, translated from
`_analyze_writing_style` (`telegram_bot.py` lines 359-371). -/
def analyzeStyleIndicators (message : String) : StyleIndicators :=
  { tone := if casualMarkers.any (fun w => strContains (pyLower message) w)
      then "conversational" else "professional"
    length := if pySplitLen message < 20 then "concise" else "detailed"
    enthusiasm := if enthusiasmMarks.any (fun p => strContains message p)
      then "high" else "moderate"
    formality := if friendlyWords.any (fun w => strContains (pyLower message) w)
      then "casual" else "formal" }

/-! ## Session state (`user_sessions` and `conversation_context` entries) -/

/-- One entry of `conversation_flow`: speaker tag (`"user"` or `"bot"`)
and message content (timestamps omitted: no claim concerns them). -/
structure FlowEntry where
  speaker : String
  content : String
deriving DecidableEq

/-- Combined per-user state: the `user_sessions[user_id]` dictionary
(`status`, `questions_asked`) together with the
`conversation_context[user_id]` dictionary. `user_writing_style` starts
as the empty dictionary (`none`) and is always updated with all four
keys at once, so it is `Option StyleIndicators`. -/
structure BotState where
  status : String
  questions_asked : Nat
  initial_idea : Option String
  questions_log : List String
  responses_given : List String
  focus_areas_covered : List String
  user_writing_style : Option StyleIndicators
  conversation_flow : List FlowEntry
deriving DecidableEq

/-- The freshly initialized session, from `handle_instant_message`
lines 260-274 (and `start_command` / `create_command`). -/
def initialBotState : BotState :=
  { status := "ready"
    questions_asked := 0
    initial_idea := none
    questions_log := []
    responses_given := []
    focus_areas_covered := []
    user_writing_style := none
    conversation_flow := [] }

/-- Python `set.add`: insert if absent, preserving insertion order in
the list model of the set. -/
def setAdd (s : List String) (x : String) : List String :=
  if s.contains x then s else s ++ [x]

/-- Python falsy test `not context[\x27initial_idea\x27]`: true for `None`
and for the empty string. -/
def ideaUnset : Option String → Bool
  | none => true
  | some s => s == ""

/-! ## Question planner (`_ask_strategic_question`) -/

/-- The fixed ordered category list `areas_needed`
(`telegram_bot.py` lines 335-342), pairing each category tag with its
question text. -/
def areasNeeded : List (String × String) :=
  [("audience", "Who exactly are you trying to reach?"),
   ("hook_style", "What kind of hook grabs you - bold statement or thought-provoking question?"),
   ("personal_story", "Got any personal experience with this topic?"),
   ("unique_angle", "What\x27s your unique take on this?"),
   ("key_message", "What\x27s the main message you want to get across?"),
   ("writing_style", "How do you usually write - formal or conversational?")]

/-- The first question emitted right after the idea is captured
(`telegram_bot.py` line 330). -/
def firstQuestionText (idea : String) : String :=
  "Got it! So you want to write about " ++ idea ++
    ". Who\x27s your target audience for this post?"

/-- The ready-to-synthesize prompt (`telegram_bot.py` line 354). -/
def terminateMessage : String :=
  "Perfect! I think I have enough context. Ready to create your LinkedIn post? Type /summary to generate it! 🚀"

/-- The defensive fallback question (`telegram_bot.py` line 357). -/
def fallbackQuestion : String :=
  "Tell me more about what you want to achieve with this post?"

/-- The `for area, question in areas_needed.items()` scan: the first
pair whose category tag is not in `covered`. -/
def findArea (covered : List String) : List (String × String) → Option (String × String)
  | [] => none
  | (a, q) :: rest => if covered.contains a then findArea covered rest else some (a, q)

/-- Translation of `_ask_strategic_question` (`telegram_bot.py`
lines 321-357): returns the updated state and the outgoing text. -/
def askStrategicQuestion (st : BotState) (isFirst : Bool) : BotState × String :=
  if isFirst then
    let q := firstQuestionText ((st.initial_idea).getD "")
    ({ st with
        focus_areas_covered := setAdd st.focus_areas_covered "initial_idea"
        questions_asked := st.questions_asked + 1
        questions_log := st.questions_log ++ [q] }, q)
  else
    match findArea st.focus_areas_covered areasNeeded with
    | some (a, q) =>
      ({ st with
          focus_areas_covered := setAdd st.focus_areas_covered a
          questions_asked := st.questions_asked + 1
          questions_log := st.questions_log ++ [q] }, q)
    | none =>
      if 4 ≤ st.questions_asked then (st, terminateMessage)
      else (st, fallbackQuestion)

/-- Translation of `_analyze_writing_style` as a state update: the
`dict.update` always carries all four keys, so it replaces the whole
profile. -/
def analyzeWritingStyle (st : BotState) (message : String) : BotState :=
  { st with user_writing_style := some (analyzeStyleIndicators message) }

/-- Translation of `_generate_instant_response` (`telegram_bot.py`
lines 298-319). -/
def generateInstantResponse (st : BotState) (userMessage : String) : BotState × String :=
  if ideaUnset st.initial_idea then
    let st1 := { st with initial_idea := some userMessage, status := "brainstorming" }
    askStrategicQuestion st1 true
  else
    let st1 := { st with responses_given := st.responses_given ++ [userMessage] }
    let st2 := analyzeWritingStyle st1 userMessage
    askStrategicQuestion st2 false

/-- Translation of `handle_instant_message` (`telegram_bot.py`
lines 245-296) for an existing session: strips the text, appends the
user turn to `conversation_flow`, generates the response, and appends
the bot turn. -/
def handleInstantMessage (st : BotState) (text : String) : BotState × String :=
  let messageText := pyStrip text
  let stA := { st with
    conversation_flow := st.conversation_flow ++ [⟨"user", messageText⟩] }
  let res := generateInstantResponse stA messageText
  ({ res.1 with
      conversation_flow := res.1.conversation_flow ++ [⟨"bot", res.2⟩] }, res.2)

/-- Fold `handleInstantMessage` over a list of inbound messages. -/
def runMessages (st : BotState) : List String → BotState
  | [] => st
  | m :: ms => runMessages (handleInstantMessage st m).1 ms

/-! ## Final content synthesis (`summary_command`, `_generate_final_content`) -/

/-- Numbered key-point lines from the `enumerate(key_points, 1)` loop
(`telegram_bot.py` lines 395-396). -/
def numberPoints : Nat → List String → List String
  | _, [] => []
  | i, p :: rest => ("\n" ++ toString i ++ ". " ++ p) :: numberPoints (i + 1) rest

/-- The call to action appended to every generated post
(`telegram_bot.py` line 399). -/
def callToAction : String :=
  "\nWhat\x27s your take on this? Let me know in the comments! 👇"

/-- Translation of `_generate_final_content` (`telegram_bot.py`
lines 373-401). The `conversation_summary` list built there is dead
code (never used), so it is not modelled. -/
def generateFinalContent (st : BotState) : String :=
  let hook : List String :=
    match st.initial_idea with
    | none => []
    | some idea => if idea == "" then [] else ["🚀 " ++ idea]
  let keyPoints := st.responses_given.take 3
  pyJoin "\n" (hook ++ numberPoints 1 keyPoints ++ [callToAction])

/-- Outcome of the `/summary` command: an error message or the
generated content. -/
inductive SummaryResult where
  | err (msg : String)
  | ok (content : String)
deriving DecidableEq

/-- Error text from `summary_command` line 201. -/
def nothingToSummarizeMsg : String :=
  "❌ No conversation to summarize. Start by sharing your content idea!"

/-- Translation of `summary_command` (`telegram_bot.py` lines 193-212):
takes the (possibly absent) session of the requesting user, returns the
session afterwards and the outcome. The session is passed through
untouched: `summary_command` performs no mutation. -/
def summaryCommand (sess : Option BotState) : Option BotState × SummaryResult :=
  match sess with
  | none => (none, SummaryResult.err nothingToSummarizeMsg)
  | some st =>
    if ideaUnset st.initial_idea then
      (some st, SummaryResult.err nothingToSummarizeMsg)
    else
      (some st, SummaryResult.ok (generateFinalContent st))

/-! ## Performance monitor (`utils/performance_monitor.py`) -/

/-- An open question timer: `current_question` entry with its text and
`start_time` (time modelled as a rational). -/
structure OpenQuestion where
  question : String
  start_time : ℚ
deriving DecidableEq

/-- Per-user metrics entry `self.metrics[user_id]`
(`performance_monitor.py` lines 40-45). `questions` keeps
(question, response, response_time) triples. -/
structure UserMetrics where
  questions : List (String × String × ℚ)
  response_times : List ℚ
  timeouts : Nat
  current_question : Option OpenQuestion
deriving DecidableEq

/-- The fresh per-user metrics entry. -/
def emptyUserMetrics : UserMetrics :=
  { questions := [], response_times := [], timeouts := 0, current_question := none }

/-- Global metrics dictionary (`performance_monitor.py` lines 29-35).
`response_times` models the `deque(maxlen=100)`. -/
structure GlobalMetrics where
  total_questions : Nat
  total_responses : Nat
  timeouts : Nat
  avg_response_time : ℚ
  response_times : List ℚ
deriving DecidableEq

/-- The monitor: target time, per-user metrics as an association list
keyed by user id, and the global metrics. -/
structure Monitor where
  target_response_time : ℚ
  metrics : List (Nat × UserMetrics)
  global_metrics : GlobalMetrics
deriving DecidableEq

/-- A freshly constructed `ConversationPerformanceMonitor`. -/
def initMonitor (target : ℚ) : Monitor :=
  { target_response_time := target
    metrics := []
    global_metrics :=
      { total_questions := 0, total_responses := 0, timeouts := 0
        avg_response_time := 0, response_times := [] } }

/-- Replace or insert the entry for key `u` in an association list. -/
def setUser : List (Nat × UserMetrics) → Nat → UserMetrics → List (Nat × UserMetrics)
  | [], u, v => [(u, v)]
  | (k, w) :: rest, u, v =>
    if k == u then (u, v) :: rest else (k, w) :: setUser rest u v

/-- Append to a `deque(maxlen=n)`: keep only the most recent `n`. -/
def dequePush (maxlen : Nat) (d : List ℚ) (x : ℚ) : List ℚ :=
  let d2 := d ++ [x]
  if d2.length ≤ maxlen then d2 else d2.drop (d2.length - maxlen)

/-- The last `n` elements of a list. -/
def lastN (n : Nat) (l : List ℚ) : List ℚ := l.drop (l.length - n)

/-- Translation of `start_question` (`performance_monitor.py`
lines 37-54), with the current clock passed explicitly. -/
def startQuestion (mon : Monitor) (u : Nat) (q : String) (now : ℚ) : Monitor :=
  let um := (mon.metrics.lookup u).getD emptyUserMetrics
  let um2 := { um with current_question := some ⟨q, now⟩ }
  { mon with
      metrics := setUser mon.metrics u um2
      global_metrics := { mon.global_metrics with
        total_questions := mon.global_metrics.total_questions + 1 } }

/-- Recompute the global average (`_update_average_response_time`,
`performance_monitor.py` lines 137-141). -/
def updateAverage (g : GlobalMetrics) : GlobalMetrics :=
  if g.response_times = [] then g
  else { g with
    avg_response_time := g.response_times.sum / (g.response_times.length : ℚ) }

/-- Translation of `record_response` (`performance_monitor.py`
lines 56-91): returns the monitor and the computed latency (0 when no
open question exists). -/
def recordResponse (mon : Monitor) (u : Nat) (resp : String) (now : ℚ) :
    Monitor × ℚ :=
  match mon.metrics.lookup u with
  | none => (mon, 0)
  | some um =>
    match um.current_question with
    | none => (mon, 0)
    | some cq =>
      let rt := now - cq.start_time
      let um2 := { um with
        questions := um.questions ++ [(cq.question, resp, rt)]
        response_times := um.response_times ++ [rt]
        current_question := none }
      let g := mon.global_metrics
      let g2 := updateAverage { g with
        total_responses := g.total_responses + 1
        response_times := dequePush 100 g.response_times rt }
      ({ mon with metrics := setUser mon.metrics u um2, global_metrics := g2 }, rt)

/-- Translation of `record_timeout` (`performance_monitor.py`
lines 93-100). -/
def recordTimeout (mon : Monitor) (u : Nat) : Monitor :=
  let metrics2 :=
    match mon.metrics.lookup u with
    | none => mon.metrics
    | some um =>
      setUser mon.metrics u { um with timeouts := um.timeouts + 1, current_question := none }
  { mon with
      metrics := metrics2
      global_metrics := { mon.global_metrics with
        timeouts := mon.global_metrics.timeouts + 1 } }

/-- The Python dictionary returned by `get_user_stats`, as a record of
optional fields: a key absent from the returned dictionary is `none`. -/
structure StatsDict where
  total_questions : Option Nat
  avg_response_time : Option ℚ
  min_response_time : Option ℚ
  max_response_time : Option ℚ
  timeouts : Option Nat
  timeout_rate : Option ℚ
deriving DecidableEq

/-- The empty dictionary `{}`. -/
def emptyStats : StatsDict :=
  { total_questions := none, avg_response_time := none, min_response_time := none
    max_response_time := none, timeouts := none, timeout_rate := none }

/-- Python `min` over a nonempty latency list (0 on the empty list,
which the code never reaches). -/
def listMin : List ℚ → ℚ
  | [] => 0
  | x :: xs => xs.foldl min x

/-- Python `max` over a nonempty latency list. -/
def listMax : List ℚ → ℚ
  | [] => 0
  | x :: xs => xs.foldl max x

/-- Translation of `get_user_stats` (`performance_monitor.py`
lines 102-124). -/
def getUserStats (mon : Monitor) (u : Nat) : StatsDict :=
  match mon.metrics.lookup u with
  | none => emptyStats
  | some ud =>
    if ud.response_times = [] then
      { emptyStats with
          total_questions := some 0
          avg_response_time := some 0
          timeouts := some ud.timeouts }
    else
      { total_questions := some ud.questions.length
        avg_response_time := some (ud.response_times.sum / (ud.response_times.length : ℚ))
        min_response_time := some (listMin ud.response_times)
        max_response_time := some (listMax ud.response_times)
        timeouts := some ud.timeouts
        timeout_rate := some ((ud.timeouts : ℚ) / ((ud.questions.length : ℚ) + (ud.timeouts : ℚ))) }

/-- Start a question at the given time and record its response after
the given latency, for each listed (start time, latency) pair. -/
def runResponses (mon : Monitor) (u : Nat) : List (ℚ × ℚ) → Monitor
  | [] => mon
  | (t, l) :: rest =>
    let m1 := startQuestion mon u "q" t
    let m2 := (recordResponse m1 u "r" (t + l)).1
    runResponses m2 u rest

/-- The session obtained by processing a list of inbound messages from
a fresh session. -/
def sessionAfter (msgs : List String) : BotState := runMessages initialBotState msgs

/-! ## Helper lemmas on the planner and message handler -/

theorem ask_false_idea (st : BotState) :
    (askStrategicQuestion st false).1.initial_idea = st.initial_idea := by
  unfold askStrategicQuestion
  cases hfa : findArea st.focus_areas_covered areasNeeded with
  | none => by_cases h4 : 4 ≤ st.questions_asked <;> simp [h4]
  | some p => obtain ⟨a, q⟩ := p; simp

theorem ask_false_style (st : BotState) :
    (askStrategicQuestion st false).1.user_writing_style = st.user_writing_style := by
  unfold askStrategicQuestion
  cases hfa : findArea st.focus_areas_covered areasNeeded with
  | none => by_cases h4 : 4 ≤ st.questions_asked <;> simp [h4]
  | some p => obtain ⟨a, q⟩ := p; simp

theorem ask_false_responses (st : BotState) :
    (askStrategicQuestion st false).1.responses_given = st.responses_given := by
  unfold askStrategicQuestion
  cases hfa : findArea st.focus_areas_covered areasNeeded with
  | none => by_cases h4 : 4 ≤ st.questions_asked <;> simp [h4]
  | some p => obtain ⟨a, q⟩ := p; simp

theorem ask_false_status (st : BotState) :
    (askStrategicQuestion st false).1.status = st.status := by
  unfold askStrategicQuestion
  cases hfa : findArea st.focus_areas_covered areasNeeded with
  | none => by_cases h4 : 4 ≤ st.questions_asked <;> simp [h4]
  | some p => obtain ⟨a, q⟩ := p; simp

/-- C3: for a fresh session (initial_idea unset), the first inbound
message text becomes `initial_idea` verbatim and the status becomes
Brainstorming; the message is not appended to `responses_given` and no
style analysis runs on it. -/
theorem idea_capture (st : BotState) (msg : String)
    (h : st.initial_idea = none) :
    (generateInstantResponse st msg).1.initial_idea = some msg ∧
    (generateInstantResponse st msg).1.status = "brainstorming" ∧
    (generateInstantResponse st msg).1.responses_given = st.responses_given ∧
    (generateInstantResponse st msg).1.user_writing_style = st.user_writing_style := by
  unfold generateInstantResponse askStrategicQuestion
  simp [h, ideaUnset]

/-- Witness for C3 at a concrete fresh session and message. -/
theorem idea_capture_witness :
    initialBotState.initial_idea = none ∧
    (generateInstantResponse initialBotState "AI agents in hiring").1.initial_idea
      = some "AI agents in hiring" ∧
    (generateInstantResponse initialBotState "AI agents in hiring").1.status
      = "brainstorming" :=
  ⟨rfl, (idea_capture initialBotState "AI agents in hiring" rfl).1,
    (idea_capture initialBotState "AI agents in hiring" rfl).2.1⟩

/-- C4: style inference is the deterministic four-field function over
casual markers, token count, punctuation markers and friendly words. -/
theorem style_inference_characterization (msg : String) :
    ((analyzeStyleIndicators msg).tone = "conversational" ↔
      (strContains (pyLower msg) "yeah" = true ∨ strContains (pyLower msg) "like" = true ∨
       strContains (pyLower msg) "kinda" = true ∨ strContains (pyLower msg) "gonna" = true)) ∧
    ((analyzeStyleIndicators msg).tone = "professional" ↔
      ¬(strContains (pyLower msg) "yeah" = true ∨ strContains (pyLower msg) "like" = true ∨
        strContains (pyLower msg) "kinda" = true ∨ strContains (pyLower msg) "gonna" = true)) ∧
    ((analyzeStyleIndicators msg).length = "concise" ↔ pySplitLen msg < 20) ∧
    ((analyzeStyleIndicators msg).length = "detailed" ↔ ¬(pySplitLen msg < 20)) ∧
    ((analyzeStyleIndicators msg).enthusiasm = "high" ↔
      (strContains msg "!" = true ∨ strContains msg "?" = true ∨
       strContains msg "..." = true)) ∧
    ((analyzeStyleIndicators msg).enthusiasm = "moderate" ↔
      ¬(strContains msg "!" = true ∨ strContains msg "?" = true ∨
        strContains msg "..." = true)) ∧
    ((analyzeStyleIndicators msg).formality = "casual" ↔
      (strContains (pyLower msg) "hey" = true ∨ strContains (pyLower msg) "cool" = true ∨
       strContains (pyLower msg) "awesome" = true ∨ strContains (pyLower msg) "great" = true)) ∧
    ((analyzeStyleIndicators msg).formality = "formal" ↔
      ¬(strContains (pyLower msg) "hey" = true ∨ strContains (pyLower msg) "cool" = true ∨
        strContains (pyLower msg) "awesome" = true ∨ strContains (pyLower msg) "great" = true)) := by
  unfold analyzeStyleIndicators casualMarkers friendlyWords enthusiasmMarks
  simp only [List.any_cons, List.any_nil, Bool.or_false, Bool.or_eq_true]
  refine ⟨?_, ?_, ?_, ?_, ?_, ?_, ?_, ?_⟩ <;> split <;> simp_all

/-- C5: the style profile after any reply equals exactly the style
inference of that reply alone; nothing from the previous reply
persists. -/
theorem style_overwrite (st : BotState) (r1 r2 : String)
    (h : ideaUnset st.initial_idea = false) :
    (generateInstantResponse (generateInstantResponse st r1).1 r2).1.user_writing_style
      = some (analyzeStyleIndicators r2) := by
  unfold generateInstantResponse analyzeWritingStyle
  simp [h, ask_false_idea, ask_false_style]

/-- Witness for C5 at concrete inputs: after two replies the stored
profile is exactly the inference of the second reply. -/
theorem style_overwrite_witness :
    ideaUnset ((generateInstantResponse initialBotState "AI agents").1).initial_idea = false ∧
    (generateInstantResponse
        (generateInstantResponse (generateInstantResponse initialBotState "AI agents").1
          "yeah this is cool!").1
        "A detailed professional statement regarding enterprise productivity metrics and outcomes measured across organizations during deployment windows this quarter and beyond for stakeholders").1.user_writing_style
      = some (analyzeStyleIndicators
          "A detailed professional statement regarding enterprise productivity metrics and outcomes measured across organizations during deployment windows this quarter and beyond for stakeholders") :=
  ⟨by decide,
    style_overwrite (generateInstantResponse initialBotState "AI agents").1
      "yeah this is cool!"
      "A detailed professional statement regarding enterprise productivity metrics and outcomes measured across organizations during deployment windows this quarter and beyond for stakeholders"
      (by decide)⟩

/-- The scan `findArea` returns exactly the entry at the first index
whose category tag is not covered. -/
theorem findArea_eq_get (covered : List String) (l : List (String × String)) (i : Nat)
    (hlt : i < l.length)
    (huncov : covered.contains (l.get ⟨i, hlt⟩).1 = false)
    (hprev : ∀ j (hj : j < i), covered.contains (l.get ⟨j, Nat.lt_trans hj hlt⟩).1 = true) :
    findArea covered l = some (l.get ⟨i, hlt⟩) := by
  induction l generalizing i with
  | nil => exact absurd hlt (Nat.not_lt_zero i)
  | cons hd tl ih =>
    obtain ⟨a, q⟩ := hd
    cases i with
    | zero =>
      have ha : covered.contains a = false := by simpa using huncov
      simp only [findArea]
      rw [if_neg (by simpa using ha)]
      rfl
    | succ n =>
      have h0 : covered.contains a = true := by
        have := hprev 0 (Nat.succ_pos n)
        simpa using this
      have htl : n < tl.length := Nat.lt_of_succ_lt_succ hlt
      have huncov2 : covered.contains (tl.get ⟨n, htl⟩).1 = false := by
        simpa using huncov
      have hprev2 : ∀ j (hj : j < n),
          covered.contains (tl.get ⟨j, Nat.lt_trans hj htl⟩).1 = true := by
        intro j hj
        have := hprev (j + 1) (Nat.succ_lt_succ hj)
        simpa using this
      simp only [findArea, h0, if_true]
      rw [ih n htl huncov2 hprev2]
      simp

/-- C1: with the idea set, a planner invocation returns the question of
the first category in the fixed order not yet covered, adds exactly
that category to the covered set, appends exactly that question to the
question log, and increments the question counter by one. -/
theorem planner_first_uncovered (st : BotState) (i : Nat)
    (hidea : ideaUnset st.initial_idea = false)
    (hlt : i < areasNeeded.length)
    (huncov : st.focus_areas_covered.contains (areasNeeded.get ⟨i, hlt⟩).1 = false)
    (hprev : ∀ j (hj : j < i),
      st.focus_areas_covered.contains (areasNeeded.get ⟨j, Nat.lt_trans hj hlt⟩).1 = true) :
    askStrategicQuestion st false =
      ({ st with
          focus_areas_covered := st.focus_areas_covered ++ [(areasNeeded.get ⟨i, hlt⟩).1]
          questions_asked := st.questions_asked + 1
          questions_log := st.questions_log ++ [(areasNeeded.get ⟨i, hlt⟩).2] },
        (areasNeeded.get ⟨i, hlt⟩).2) := by
  unfold askStrategicQuestion
  rw [findArea_eq_get st.focus_areas_covered areasNeeded i hlt huncov hprev]
  have hmem : (areasNeeded.get ⟨i, hlt⟩).1 ∉ st.focus_areas_covered := by
    simpa using huncov
  simp [setAdd, hmem]
  simpa using hmem

/-- Witness for C1: in the session right after the idea is captured,
the planner picks `audience`, the first category of the fixed list. -/
theorem planner_first_uncovered_witness :
    (askStrategicQuestion (sessionAfter ["AI agents in hiring"]) false).2
      = "Who exactly are you trying to reach?" := by
  have h := planner_first_uncovered (sessionAfter ["AI agents in hiring"]) 0
    (by decide) (by decide) (by decide)
    (fun j hj => absurd hj (Nat.not_lt_zero j))
  rw [h]
  rfl

theorem handle_first_view (st : BotState) (msg : String)
    (h : ideaUnset st.initial_idea = true) :
    (handleInstantMessage st msg).1.initial_idea = some (pyStrip msg) ∧
    (handleInstantMessage st msg).1.focus_areas_covered
      = setAdd st.focus_areas_covered "initial_idea" ∧
    (handleInstantMessage st msg).1.questions_asked = st.questions_asked + 1 := by
  unfold handleInstantMessage generateInstantResponse askStrategicQuestion
  simp [h]

theorem handle_view_some (st : BotState) (msg a q : String)
    (h : ideaUnset st.initial_idea = false)
    (hfa : findArea st.focus_areas_covered areasNeeded = some (a, q)) :
    (handleInstantMessage st msg).1.initial_idea = st.initial_idea ∧
    (handleInstantMessage st msg).1.focus_areas_covered = setAdd st.focus_areas_covered a ∧
    (handleInstantMessage st msg).1.questions_asked = st.questions_asked + 1 ∧
    (handleInstantMessage st msg).2 = q := by
  unfold handleInstantMessage generateInstantResponse analyzeWritingStyle askStrategicQuestion
  simp [h, hfa]

theorem handle_view_none (st : BotState) (msg : String)
    (h : ideaUnset st.initial_idea = false)
    (hfa : findArea st.focus_areas_covered areasNeeded = none) :
    (handleInstantMessage st msg).1.initial_idea = st.initial_idea ∧
    (handleInstantMessage st msg).1.focus_areas_covered = st.focus_areas_covered ∧
    (handleInstantMessage st msg).1.questions_asked = st.questions_asked ∧
    (handleInstantMessage st msg).2
      = (if 4 ≤ st.questions_asked then terminateMessage else fallbackQuestion) := by
  unfold handleInstantMessage generateInstantResponse analyzeWritingStyle askStrategicQuestion
  simp [h, hfa]
  by_cases h4 : 4 ≤ st.questions_asked <;> simp [h4]

theorem findArea_eval1 :
    findArea ["initial_idea"] areasNeeded
      = some ("audience", "Who exactly are you trying to reach?") := rfl

theorem findArea_eval2 :
    findArea ["initial_idea", "audience"] areasNeeded
      = some ("hook_style",
          "What kind of hook grabs you - bold statement or thought-provoking question?") := rfl

theorem findArea_eval3 :
    findArea ["initial_idea", "audience", "hook_style"] areasNeeded
      = some ("personal_story", "Got any personal experience with this topic?") := rfl

theorem findArea_eval4 :
    findArea ["initial_idea", "audience", "hook_style", "personal_story"] areasNeeded
      = some ("unique_angle", "What\x27s your unique take on this?") := rfl

theorem findArea_eval5 :
    findArea ["initial_idea", "audience", "hook_style", "personal_story",
      "unique_angle"] areasNeeded
      = some ("key_message", "What\x27s the main message you want to get across?") := rfl

theorem findArea_eval6 :
    findArea ["initial_idea", "audience", "hook_style", "personal_story",
      "unique_angle", "key_message"] areasNeeded
      = some ("writing_style", "How do you usually write - formal or conversational?") := rfl

theorem findArea_eval7 :
    findArea ["initial_idea", "audience", "hook_style", "personal_story",
      "unique_angle", "key_message", "writing_style"] areasNeeded = none := rfl

/-- C2: from a fresh session, after the idea plus exactly 6
category-answers the next planner invocation returns the Terminate
prompt; with fewer than 6 answers it never does; once terminated,
further invocations stay terminated with `focus_areas_covered` and
`questions_asked` unchanged. -/
theorem planner_termination (idea a1 a2 a3 a4 a5 a6 x y : String)
    (h : pyStrip idea ≠ "") :
    (handleInstantMessage (sessionAfter [idea, a1, a2, a3, a4, a5, a6]) x).2
      = terminateMessage ∧
    (handleInstantMessage (sessionAfter [idea]) a1).2 ≠ terminateMessage ∧
    (handleInstantMessage (sessionAfter [idea, a1]) a2).2 ≠ terminateMessage ∧
    (handleInstantMessage (sessionAfter [idea, a1, a2]) a3).2 ≠ terminateMessage ∧
    (handleInstantMessage (sessionAfter [idea, a1, a2, a3]) a4).2 ≠ terminateMessage ∧
    (handleInstantMessage (sessionAfter [idea, a1, a2, a3, a4]) a5).2 ≠ terminateMessage ∧
    (handleInstantMessage (sessionAfter [idea, a1, a2, a3, a4, a5]) a6).2
      ≠ terminateMessage ∧
    (handleInstantMessage (sessionAfter [idea, a1, a2, a3, a4, a5, a6, x]) y).2
      = terminateMessage ∧
    (sessionAfter [idea, a1, a2, a3, a4, a5, a6, x]).focus_areas_covered
      = (sessionAfter [idea, a1, a2, a3, a4, a5, a6]).focus_areas_covered ∧
    (sessionAfter [idea, a1, a2, a3, a4, a5, a6, x]).questions_asked
      = (sessionAfter [idea, a1, a2, a3, a4, a5, a6]).questions_asked := by
  have hb : (pyStrip idea == "") = false := by simpa using h
  have hunset : ideaUnset (some (pyStrip idea)) = false := by simp [ideaUnset, hb]
  have e1 : sessionAfter [idea] = (handleInstantMessage initialBotState idea).1 := rfl
  have v0 := handle_first_view initialBotState idea rfl
  have i1 : (sessionAfter [idea]).initial_idea = some (pyStrip idea) := by
    rw [e1]; exact v0.1
  have c1 : (sessionAfter [idea]).focus_areas_covered = ["initial_idea"] := by
    rw [e1, v0.2.1]; rfl
  have n1 : (sessionAfter [idea]).questions_asked = 1 := by
    rw [e1, v0.2.2]; rfl
  have u1 : ideaUnset (sessionAfter [idea]).initial_idea = false := by
    rw [i1]; exact hunset
  have f1 : findArea (sessionAfter [idea]).focus_areas_covered areasNeeded
      = some ("audience", "Who exactly are you trying to reach?") := by
    rw [c1]; exact findArea_eval1
  have v1 := handle_view_some (sessionAfter [idea]) a1 _ _ u1 f1
  have e2 : sessionAfter [idea, a1]
      = (handleInstantMessage (sessionAfter [idea]) a1).1 := rfl
  have i2 : (sessionAfter [idea, a1]).initial_idea = some (pyStrip idea) := by
    rw [e2, v1.1]; exact i1
  have c2 : (sessionAfter [idea, a1]).focus_areas_covered
      = ["initial_idea", "audience"] := by
    rw [e2, v1.2.1, c1]; rfl
  have n2 : (sessionAfter [idea, a1]).questions_asked = 2 := by
    rw [e2, v1.2.2.1, n1]
  have u2 : ideaUnset (sessionAfter [idea, a1]).initial_idea = false := by
    rw [i2]; exact hunset
  have f2 : findArea (sessionAfter [idea, a1]).focus_areas_covered areasNeeded
      = some ("hook_style",
          "What kind of hook grabs you - bold statement or thought-provoking question?") := by
    rw [c2]; exact findArea_eval2
  have v2 := handle_view_some (sessionAfter [idea, a1]) a2 _ _ u2 f2
  have e3 : sessionAfter [idea, a1, a2]
      = (handleInstantMessage (sessionAfter [idea, a1]) a2).1 := rfl
  have i3 : (sessionAfter [idea, a1, a2]).initial_idea = some (pyStrip idea) := by
    rw [e3, v2.1]; exact i2
  have c3 : (sessionAfter [idea, a1, a2]).focus_areas_covered
      = ["initial_idea", "audience", "hook_style"] := by
    rw [e3, v2.2.1, c2]; rfl
  have n3 : (sessionAfter [idea, a1, a2]).questions_asked = 3 := by
    rw [e3, v2.2.2.1, n2]
  have u3 : ideaUnset (sessionAfter [idea, a1, a2]).initial_idea = false := by
    rw [i3]; exact hunset
  have f3 : findArea (sessionAfter [idea, a1, a2]).focus_areas_covered areasNeeded
      = some ("personal_story", "Got any personal experience with this topic?") := by
    rw [c3]; exact findArea_eval3
  have v3 := handle_view_some (sessionAfter [idea, a1, a2]) a3 _ _ u3 f3
  have e4 : sessionAfter [idea, a1, a2, a3]
      = (handleInstantMessage (sessionAfter [idea, a1, a2]) a3).1 := rfl
  have i4 : (sessionAfter [idea, a1, a2, a3]).initial_idea = some (pyStrip idea) := by
    rw [e4, v3.1]; exact i3
  have c4 : (sessionAfter [idea, a1, a2, a3]).focus_areas_covered
      = ["initial_idea", "audience", "hook_style", "personal_story"] := by
    rw [e4, v3.2.1, c3]; rfl
  have n4 : (sessionAfter [idea, a1, a2, a3]).questions_asked = 4 := by
    rw [e4, v3.2.2.1, n3]
  have u4 : ideaUnset (sessionAfter [idea, a1, a2, a3]).initial_idea = false := by
    rw [i4]; exact hunset
  have f4 : findArea (sessionAfter [idea, a1, a2, a3]).focus_areas_covered areasNeeded
      = some ("unique_angle", "What\x27s your unique take on this?") := by
    rw [c4]; exact findArea_eval4
  have v4 := handle_view_some (sessionAfter [idea, a1, a2, a3]) a4 _ _ u4 f4
  have e5 : sessionAfter [idea, a1, a2, a3, a4]
      = (handleInstantMessage (sessionAfter [idea, a1, a2, a3]) a4).1 := rfl
  have i5 : (sessionAfter [idea, a1, a2, a3, a4]).initial_idea
      = some (pyStrip idea) := by
    rw [e5, v4.1]; exact i4
  have c5 : (sessionAfter [idea, a1, a2, a3, a4]).focus_areas_covered
      = ["initial_idea", "audience", "hook_style", "personal_story", "unique_angle"] := by
    rw [e5, v4.2.1, c4]; rfl
  have n5 : (sessionAfter [idea, a1, a2, a3, a4]).questions_asked = 5 := by
    rw [e5, v4.2.2.1, n4]
  have u5 : ideaUnset (sessionAfter [idea, a1, a2, a3, a4]).initial_idea = false := by
    rw [i5]; exact hunset
  have f5 : findArea (sessionAfter [idea, a1, a2, a3, a4]).focus_areas_covered areasNeeded
      = some ("key_message", "What\x27s the main message you want to get across?") := by
    rw [c5]; exact findArea_eval5
  have v5 := handle_view_some (sessionAfter [idea, a1, a2, a3, a4]) a5 _ _ u5 f5
  have e6 : sessionAfter [idea, a1, a2, a3, a4, a5]
      = (handleInstantMessage (sessionAfter [idea, a1, a2, a3, a4]) a5).1 := rfl
  have i6 : (sessionAfter [idea, a1, a2, a3, a4, a5]).initial_idea
      = some (pyStrip idea) := by
    rw [e6, v5.1]; exact i5
  have c6 : (sessionAfter [idea, a1, a2, a3, a4, a5]).focus_areas_covered
      = ["initial_idea", "audience", "hook_style", "personal_story", "unique_angle",
         "key_message"] := by
    rw [e6, v5.2.1, c5]; rfl
  have n6 : (sessionAfter [idea, a1, a2, a3, a4, a5]).questions_asked = 6 := by
    rw [e6, v5.2.2.1, n5]
  have u6 : ideaUnset (sessionAfter [idea, a1, a2, a3, a4, a5]).initial_idea = false := by
    rw [i6]; exact hunset
  have f6 : findArea (sessionAfter [idea, a1, a2, a3, a4, a5]).focus_areas_covered
      areasNeeded
      = some ("writing_style", "How do you usually write - formal or conversational?") := by
    rw [c6]; exact findArea_eval6
  have v6 := handle_view_some (sessionAfter [idea, a1, a2, a3, a4, a5]) a6 _ _ u6 f6
  have e7 : sessionAfter [idea, a1, a2, a3, a4, a5, a6]
      = (handleInstantMessage (sessionAfter [idea, a1, a2, a3, a4, a5]) a6).1 := rfl
  have i7 : (sessionAfter [idea, a1, a2, a3, a4, a5, a6]).initial_idea
      = some (pyStrip idea) := by
    rw [e7, v6.1]; exact i6
  have c7 : (sessionAfter [idea, a1, a2, a3, a4, a5, a6]).focus_areas_covered
      = ["initial_idea", "audience", "hook_style", "personal_story", "unique_angle",
         "key_message", "writing_style"] := by
    rw [e7, v6.2.1, c6]; rfl
  have n7 : (sessionAfter [idea, a1, a2, a3, a4, a5, a6]).questions_asked = 7 := by
    rw [e7, v6.2.2.1, n6]
  have u7 : ideaUnset (sessionAfter [idea, a1, a2, a3, a4, a5, a6]).initial_idea
      = false := by
    rw [i7]; exact hunset
  have f7 : findArea (sessionAfter [idea, a1, a2, a3, a4, a5, a6]).focus_areas_covered
      areasNeeded = none := by
    rw [c7]; exact findArea_eval7
  have v7 := handle_view_none (sessionAfter [idea, a1, a2, a3, a4, a5, a6]) x u7 f7
  have r7 : (handleInstantMessage (sessionAfter [idea, a1, a2, a3, a4, a5, a6]) x).2
      = terminateMessage := by
    rw [v7.2.2.2, n7]; rfl
  have e8 : sessionAfter [idea, a1, a2, a3, a4, a5, a6, x]
      = (handleInstantMessage (sessionAfter [idea, a1, a2, a3, a4, a5, a6]) x).1 := rfl
  have i8 : (sessionAfter [idea, a1, a2, a3, a4, a5, a6, x]).initial_idea
      = some (pyStrip idea) := by
    rw [e8, v7.1]; exact i7
  have c8 : (sessionAfter [idea, a1, a2, a3, a4, a5, a6, x]).focus_areas_covered
      = ["initial_idea", "audience", "hook_style", "personal_story", "unique_angle",
         "key_message", "writing_style"] := by
    rw [e8, v7.2.1]; exact c7
  have n8 : (sessionAfter [idea, a1, a2, a3, a4, a5, a6, x]).questions_asked = 7 := by
    rw [e8, v7.2.2.1]; exact n7
  have u8 : ideaUnset (sessionAfter [idea, a1, a2, a3, a4, a5, a6, x]).initial_idea
      = false := by
    rw [i8]; exact hunset
  have f8 : findArea (sessionAfter [idea, a1, a2, a3, a4, a5, a6, x]).focus_areas_covered
      areasNeeded = none := by
    rw [c8]; exact findArea_eval7
  have v8 := handle_view_none (sessionAfter [idea, a1, a2, a3, a4, a5, a6, x]) y u8 f8
  have r8 : (handleInstantMessage (sessionAfter [idea, a1, a2, a3, a4, a5, a6, x]) y).2
      = terminateMessage := by
    rw [v8.2.2.2, n8]; rfl
  refine ⟨r7, ?_, ?_, ?_, ?_, ?_, ?_, r8, ?_, ?_⟩
  · rw [v1.2.2.2]; decide
  · rw [v2.2.2.2]; decide
  · rw [v3.2.2.2]; decide
  · rw [v4.2.2.2]; decide
  · rw [v5.2.2.2]; decide
  · rw [v6.2.2.2]; decide
  · rw [c8, c7]
  · rw [n8, n7]

/-- Witness for C2: concrete idea, six concrete answers, then the
planner terminates. -/
theorem planner_termination_witness :
    pyStrip "AI agents in hiring" ≠ "" ∧
    (handleInstantMessage
        (sessionAfter ["AI agents in hiring", "r1", "r2", "r3", "r4", "r5", "r6"])
        "next").2 = terminateMessage :=
  ⟨by decide,
    (planner_termination "AI agents in hiring" "r1" "r2" "r3" "r4" "r5" "r6"
      "next" "later" (by decide)).1⟩

theorem pyJoin_cons_length (sep x : String) (rest : List String) :
    x.length ≤ (pyJoin sep (x :: rest)).length := by
  cases rest with
  | nil => simp [pyJoin]
  | cons z zs =>
    simp only [pyJoin, String.length_append]
    omega

/-- C6 counterexample: a session with the idea set, after a successful
`/summary`, is returned entirely unchanged with status still
`"brainstorming"` — the code never transitions any session to a
Complete status (no such status exists in the code). -/
theorem summary_no_complete_transition_cex :
    (summaryCommand (some (sessionAfter ["AI agents in hiring"]))).1
      = some (sessionAfter ["AI agents in hiring"]) ∧
    (summaryCommand (some (sessionAfter ["AI agents in hiring"]))).2
      = SummaryResult.ok (generateFinalContent (sessionAfter ["AI agents in hiring"])) ∧
    (sessionAfter ["AI agents in hiring"]).status = "brainstorming" := by
  refine ⟨?_, ?_, ?_⟩ <;> decide

/-- C6 amended: a summarize request errors (with no session mutation)
iff the session is absent or the idea is unset; otherwise it returns a
non-empty artifact and leaves the session unchanged (status stays
Brainstorming; there is no Complete transition). -/
theorem summary_behavior (st : BotState) :
    summaryCommand none = (none, SummaryResult.err nothingToSummarizeMsg) ∧
    (ideaUnset st.initial_idea = true →
      summaryCommand (some st) = (some st, SummaryResult.err nothingToSummarizeMsg)) ∧
    (ideaUnset st.initial_idea = false →
      summaryCommand (some st)
          = (some st, SummaryResult.ok (generateFinalContent st)) ∧
        generateFinalContent st ≠ "") := by
  refine ⟨rfl, ?_, ?_⟩
  · intro h
    simp [summaryCommand, h]
  · intro h
    constructor
    · simp [summaryCommand, h]
    · obtain ⟨s, hs⟩ : ∃ s, st.initial_idea = some s := by
        cases hi : st.initial_idea with
        | none => rw [hi] at h; simp [ideaUnset] at h
        | some s => exact ⟨s, rfl⟩
      have hne : (s == "") = false := by
        rw [hs] at h; simpa [ideaUnset] using h
      have hfc : generateFinalContent st
          = pyJoin "\n" (("🚀 " ++ s)
              :: (numberPoints 1 (st.responses_given.take 3) ++ [callToAction])) := by
        simp [generateFinalContent, hs, hne]
      intro hc
      have hlen := pyJoin_cons_length "\n" ("🚀 " ++ s)
        (numberPoints 1 (st.responses_given.take 3) ++ [callToAction])
      rw [← hfc, hc] at hlen
      rw [String.length_append] at hlen
      have h0 : ("" : String).length = 0 := rfl
      have h2 : ("🚀 " : String).length = 2 := rfl
      rw [h0, h2] at hlen
      omega

/-- Witness for C6 (amended) at a concrete session with the idea set. -/
theorem summary_behavior_witness :
    ideaUnset (sessionAfter ["AI brainstorming"]).initial_idea = false ∧
    summaryCommand (some (sessionAfter ["AI brainstorming"]))
      = (some (sessionAfter ["AI brainstorming"]),
         SummaryResult.ok (generateFinalContent (sessionAfter ["AI brainstorming"]))) ∧
    generateFinalContent (sessionAfter ["AI brainstorming"]) ≠ "" :=
  ⟨by decide,
    ((summary_behavior (sessionAfter ["AI brainstorming"])).2.2 (by decide)).1,
    ((summary_behavior (sessionAfter ["AI brainstorming"])).2.2 (by decide)).2⟩

/-! ## Monitor helper lemmas -/

theorem lookup_setUser_self (m : List (Nat × UserMetrics)) (u : Nat) (v : UserMetrics) :
    (setUser m u v).lookup u = some v := by
  induction m with
  | nil => simp [setUser, List.lookup]
  | cons p rest ih =>
    obtain ⟨k, w⟩ := p
    by_cases hk : k = u
    · subst hk
      simp [setUser, List.lookup]
    · have hbk : (k == u) = false := by simpa using hk
      have hbu : (u == k) = false := by simpa using Ne.symm hk
      simp [setUser, List.lookup, hbk, hbu, ih]

theorem lookup_setUser_ne (m : List (Nat × UserMetrics)) (u v : Nat) (w : UserMetrics)
    (h : v ≠ u) :
    (setUser m u w).lookup v = m.lookup v := by
  have hb : (v == u) = false := by simpa using h
  induction m with
  | nil => simp [setUser, List.lookup, hb]
  | cons p rest ih =>
    obtain ⟨k, kw⟩ := p
    by_cases hk : k = u
    · subst hk
      simp [setUser, List.lookup, hb]
    · have hbk : (k == u) = false := by simpa using hk
      simp [setUser, List.lookup, hbk, ih]

/-- The all-zero six-field statistics record that the specification
describes for an unknown user (stated from the specification wording,
for comparison with what `get_user_stats` actually returns). -/
def zeroStatsClaim : StatsDict :=
  { total_questions := some 0
    avg_response_time := some 0
    min_response_time := some 0
    max_response_time := some 0
    timeouts := some 0
    timeout_rate := some 0 }

/-- C7 counterexample: for an unknown user, `get_user_stats` returns
the empty dictionary, not the all-zero six-field record the claim
describes (for instance no `timeout_rate` key is present). -/
theorem user_stats_unknown_cex :
    getUserStats (initMonitor 2) 7 = emptyStats ∧
    emptyStats.timeout_rate = none ∧
    emptyStats ≠ zeroStatsClaim := by
  refine ⟨rfl, rfl, ?_⟩
  decide

/-- C7 amended: `get_user_stats` returns the empty record for an
unknown user; for a known user with no recorded latencies it returns
only question count 0, average 0 and the timeout count; otherwise it
returns the full six-field record with
`timeout_rate = timeouts / (questions_answered + timeouts)`. -/
theorem user_stats_shape (mon : Monitor) (u : Nat) :
    (mon.metrics.lookup u = none → getUserStats mon u = emptyStats) ∧
    (∀ ud, mon.metrics.lookup u = some ud → ud.response_times = [] →
      getUserStats mon u
        = { emptyStats with
            total_questions := some 0
            avg_response_time := some 0
            timeouts := some ud.timeouts }) ∧
    (∀ ud, mon.metrics.lookup u = some ud → ud.response_times ≠ [] →
      getUserStats mon u
        = { total_questions := some ud.questions.length
            avg_response_time :=
              some (ud.response_times.sum / (ud.response_times.length : ℚ))
            min_response_time := some (listMin ud.response_times)
            max_response_time := some (listMax ud.response_times)
            timeouts := some ud.timeouts
            timeout_rate :=
              some ((ud.timeouts : ℚ)
                / ((ud.questions.length : ℚ) + (ud.timeouts : ℚ))) }) := by
  refine ⟨?_, ?_, ?_⟩
  · intro h
    simp [getUserStats, h]
  · intro ud hud hrt
    simp [getUserStats, hud, hrt]
  · intro ud hud hrt
    simp [getUserStats, hud, hrt]

/-- Witness for C7 (amended): the unknown-user branch at a fresh
monitor, and the full branch after one recorded response. -/
theorem user_stats_shape_witness :
    getUserStats (initMonitor 2) 3 = emptyStats ∧
    getUserStats (runResponses (initMonitor 2) 1 [(0, 3)]) 1
      = { total_questions := some 1
          avg_response_time := some 3
          min_response_time := some 3
          max_response_time := some 3
          timeouts := some 0
          timeout_rate := some 0 } := by
  constructor
  · exact (user_stats_shape (initMonitor 2) 3).1 rfl
  · have hlk : (runResponses (initMonitor 2) 1 [(0, 3)]).metrics.lookup 1
        = some ⟨[("q", "r", (3 : ℚ))], [(3 : ℚ)], 0, none⟩ := by
      simp [runResponses, startQuestion, recordResponse, initMonitor, setUser,
        List.lookup, dequePush, updateAverage, emptyUserMetrics]
    have h := (user_stats_shape (runResponses (initMonitor 2) 1 [(0, 3)]) 1).2.2
      ⟨[("q", "r", (3 : ℚ))], [(3 : ℚ)], 0, none⟩ hlk (by simp)
    rw [h]
    simp [listMin, listMax]

/-- C9: `start_question` silently overwrites the (at most one) open
timer of the user, leaves every timeout counter unchanged (per user
and global), leaves other users untouched, and increments the global
question counter on every call. -/
theorem start_question_overwrite (mon : Monitor) (u : Nat) (q : String) (t : ℚ) :
    (startQuestion mon u q t).metrics.lookup u
      = some { (mon.metrics.lookup u).getD emptyUserMetrics with
          current_question := some ⟨q, t⟩ } ∧
    (startQuestion mon u q t).global_metrics.timeouts = mon.global_metrics.timeouts ∧
    (startQuestion mon u q t).global_metrics.total_questions
      = mon.global_metrics.total_questions + 1 ∧
    (∀ v, v ≠ u →
      (startQuestion mon u q t).metrics.lookup v = mon.metrics.lookup v) := by
  refine ⟨?_, rfl, rfl, ?_⟩
  · simp [startQuestion, lookup_setUser_self]
  · intro v hv
    simp [startQuestion, lookup_setUser_ne _ _ _ _ hv]

/-- Witness for C9: starting a second question for user 1 replaces the
first timer, keeps timeouts at zero, and counts both questions. -/
theorem start_question_overwrite_witness :
    (startQuestion (startQuestion (initMonitor 2) 1 "first" 0) 1 "second" 5).metrics.lookup 1
      = some { ((startQuestion (initMonitor 2) 1 "first" 0).metrics.lookup 1).getD
            emptyUserMetrics with current_question := some ⟨"second", (5 : ℚ)⟩ } ∧
    (startQuestion (startQuestion (initMonitor 2) 1 "first" 0) 1 "second" 5).metrics.lookup 2
      = (startQuestion (initMonitor 2) 1 "first" 0).metrics.lookup 2 ∧
    (startQuestion (startQuestion (initMonitor 2) 1 "first" 0) 1 "second" 5).global_metrics.timeouts
      = (startQuestion (initMonitor 2) 1 "first" 0).global_metrics.timeouts :=
  ⟨(start_question_overwrite (startQuestion (initMonitor 2) 1 "first" 0) 1 "second" 5).1,
   (start_question_overwrite (startQuestion (initMonitor 2) 1 "first" 0) 1 "second" 5).2.2.2
      2 (by decide),
   (start_question_overwrite (startQuestion (initMonitor 2) 1 "first" 0) 1 "second" 5).2.1⟩

/-- C10: `record_timeout` for a user with no metrics entry increments
only the global timeout counter, creates no per-user entry, and the
user remains unknown to `get_user_stats`. -/
theorem timeout_unknown_user (mon : Monitor) (u : Nat)
    (h : mon.metrics.lookup u = none) :
    (recordTimeout mon u).metrics = mon.metrics ∧
    (recordTimeout mon u).global_metrics.timeouts
      = mon.global_metrics.timeouts + 1 ∧
    getUserStats (recordTimeout mon u) u = emptyStats := by
  refine ⟨?_, rfl, ?_⟩
  · simp [recordTimeout, h]
  · simp [getUserStats, recordTimeout, h]

/-- Witness for C10 at a fresh monitor and an unknown user. -/
theorem timeout_unknown_user_witness :
    (recordTimeout (initMonitor 2) 9).metrics = (initMonitor 2).metrics ∧
    (recordTimeout (initMonitor 2) 9).global_metrics.timeouts
      = (initMonitor 2).global_metrics.timeouts + 1 ∧
    getUserStats (recordTimeout (initMonitor 2) 9) 9 = emptyStats :=
  timeout_unknown_user (initMonitor 2) 9 rfl

theorem dequePush_eq_lastN (n : Nat) (d : List ℚ) (x : ℚ) :
    dequePush n d x = lastN n (d ++ [x]) := by
  unfold dequePush lastN
  simp only []
  split
  · next hle =>
    have h0 : (d ++ [x]).length - n = 0 := by omega
    rw [h0, List.drop_zero]
  · rfl

theorem lastN_length_le (n : Nat) (l : List ℚ) : (lastN n l).length ≤ n := by
  unfold lastN
  rw [List.length_drop]
  omega

theorem lastN_append (n : Nat) (l m : List ℚ) :
    lastN n (lastN n l ++ m) = lastN n (l ++ m) := by
  unfold lastN
  rcases le_or_lt l.length n with h | h
  · have h0 : l.length - n = 0 := by omega
    rw [h0, List.drop_zero]
  · have hdl : (l.drop (l.length - n)).length = n := by
      rw [List.length_drop]; omega
    have h1 : (l.drop (l.length - n) ++ m).length - n = m.length := by
      rw [List.length_append, hdl]; omega
    have h2 : (l ++ m).length - n = m.length + (l.length - n) := by
      rw [List.length_append]; omega
    rw [h1, h2, List.drop_append_eq_append_drop, List.drop_append_eq_append_drop,
      List.drop_drop, hdl]
    have h4 : m.length + (l.length - n) - l.length = m.length - n := by omega
    rw [h4, Nat.add_comm (l.length - n) m.length]

theorem recordResponse_after_start (mon : Monitor) (u : Nat) (q r : String)
    (t now : ℚ) :
    ((recordResponse (startQuestion mon u q t) u r now).1).global_metrics
      = updateAverage
          { mon.global_metrics with
            total_questions := mon.global_metrics.total_questions + 1
            total_responses := mon.global_metrics.total_responses + 1
            response_times :=
              dequePush 100 mon.global_metrics.response_times (now - t) } := by
  unfold startQuestion recordResponse
  simp [lookup_setUser_self]

theorem updateAverage_response_times (g : GlobalMetrics) :
    (updateAverage g).response_times = g.response_times := by
  unfold updateAverage
  split <;> rfl

theorem runResponses_window (u : Nat) (ps : List (ℚ × ℚ)) :
    ∀ mon : Monitor, mon.global_metrics.response_times.length ≤ 100 →
      (runResponses mon u ps).global_metrics.response_times
        = lastN 100 (mon.global_metrics.response_times ++ ps.map Prod.snd) ∧
      (ps ≠ [] →
        (runResponses mon u ps).global_metrics.avg_response_time
          = (lastN 100 (mon.global_metrics.response_times ++ ps.map Prod.snd)).sum
            / ((lastN 100 (mon.global_metrics.response_times
                ++ ps.map Prod.snd)).length : ℚ)) := by
  induction ps with
  | nil =>
    intro mon h
    refine ⟨?_, fun hne => absurd rfl hne⟩
    show mon.global_metrics.response_times
      = lastN 100 (mon.global_metrics.response_times ++ List.map Prod.snd [])
    rw [List.map_nil, List.append_nil]
    unfold lastN
    have h0 : mon.global_metrics.response_times.length - 100 = 0 := by omega
    rw [h0, List.drop_zero]
  | cons p rest ih =>
    obtain ⟨t, l⟩ := p
    intro mon h
    have hg := recordResponse_after_start mon u "q" "r" t (t + l)
    have hl : t + l - t = l := by ring
    rw [hl] at hg
    have hdpeq := dequePush_eq_lastN 100 mon.global_metrics.response_times l
    have hdpne : dequePush 100 mon.global_metrics.response_times l ≠ [] := by
      rw [hdpeq]
      unfold lastN
      intro hc
      have hlen := congrArg List.length hc
      rw [List.length_drop, List.length_append] at hlen
      simp at hlen
      omega
    have hw2 : ((recordResponse (startQuestion mon u "q" t) u "r"
        (t + l)).1).global_metrics.response_times
        = lastN 100 (mon.global_metrics.response_times ++ [l]) := by
      rw [hg, updateAverage_response_times]
      exact hdpeq
    have hw2len : ((recordResponse (startQuestion mon u "q" t) u "r"
        (t + l)).1).global_metrics.response_times.length ≤ 100 := by
      rw [hw2]
      exact lastN_length_le 100 _
    have havg2 : ((recordResponse (startQuestion mon u "q" t) u "r"
        (t + l)).1).global_metrics.avg_response_time
        = (dequePush 100 mon.global_metrics.response_times l).sum
          / ((dequePush 100 mon.global_metrics.response_times l).length : ℚ) := by
      rw [hg]
      simp [updateAverage, hdpne]
    have hrun : runResponses mon u ((t, l) :: rest)
        = runResponses ((recordResponse (startQuestion mon u "q" t) u "r"
            (t + l)).1) u rest := rfl
    obtain ⟨ihw, ihavg⟩ := ih ((recordResponse (startQuestion mon u "q" t) u "r"
      (t + l)).1) hw2len
    constructor
    · rw [hrun, ihw, hw2, lastN_append, ← List.append_cons]
      rfl
    · intro hne
      cases rest with
      | nil =>
        rw [hrun]
        show ((recordResponse (startQuestion mon u "q" t) u "r"
            (t + l)).1).global_metrics.avg_response_time = _
        rw [havg2, hdpeq]
        rfl
      | cons p2 rest2 =>
        have hne2 : (p2 :: rest2) ≠ ([] : List (ℚ × ℚ)) := by simp
        rw [hrun, ihavg hne2, hw2, lastN_append, ← List.append_cons]
        rfl

/-- C8: after 150 recorded responses from a fresh monitor, the global
sample window holds exactly the latest 100 latencies (oldest evicted
first) and the global average is computed over exactly that window. -/
theorem rolling_window_bound (u : Nat) (ps : List (ℚ × ℚ)) (h : ps.length = 150) :
    (runResponses (initMonitor 2) u ps).global_metrics.response_times
      = (ps.map Prod.snd).drop 50 ∧
    (runResponses (initMonitor 2) u ps).global_metrics.response_times.length = 100 ∧
    (runResponses (initMonitor 2) u ps).global_metrics.avg_response_time
      = ((ps.map Prod.snd).drop 50).sum / 100 := by
  have h0 : (initMonitor 2).global_metrics.response_times.length ≤ 100 := by
    simp [initMonitor]
  obtain ⟨hw, havg⟩ := runResponses_window u ps (initMonitor 2) h0
  have hmap : (ps.map Prod.snd).length = 150 := by rw [List.length_map, h]
  have hinit : (initMonitor 2).global_metrics.response_times = ([] : List ℚ) := rfl
  rw [hinit, List.nil_append] at hw havg
  have hlast : lastN 100 (ps.map Prod.snd) = (ps.map Prod.snd).drop 50 := by
    unfold lastN
    rw [hmap]
  have hlen : ((ps.map Prod.snd).drop 50).length = 100 := by
    rw [List.length_drop, hmap]
  have hne : ps ≠ [] := by
    intro hc
    rw [hc] at h
    simp at h
  refine ⟨?_, ?_, ?_⟩
  · rw [hw, hlast]
  · rw [hw, hlast, hlen]
  · rw [havg hne, hlast, hlen]
    norm_num

/-- A concrete list of `n` (start time, latency) pairs used to witness
the rolling-window bound. -/
def latencyPairs (n : Nat) : List (ℚ × ℚ) :=
  List.map (fun (i : Nat) => ((i : ℚ), (i : ℚ))) (List.range n)

theorem latencyPairs_length (n : Nat) : (latencyPairs n).length = n := by
  unfold latencyPairs
  rw [List.length_map, List.length_range]

/-- Witness for C8 with 150 concrete recorded responses. -/
theorem rolling_window_bound_witness :
    (latencyPairs 150).length = 150 ∧
    (runResponses (initMonitor 2) 1
        (latencyPairs 150)).global_metrics.response_times.length = 100 :=
  ⟨latencyPairs_length 150,
    (rolling_window_bound 1 (latencyPairs 150) (latencyPairs_length 150)).2.1⟩
